import Mathlib

/-!
Verification development for the eWeb MCP intent-resolution server.

The definitions below are a shallow embedding of the two source files
`src/mcp_server.py` and `src/eweb_client.py`.  Query texts are modelled as
`List Char`; Python string methods (`lower`, `in`, `rstrip`, `isdigit`),
truthiness, and the two regular expressions used by the server are modelled
explicitly.  The HTTP transport performed by `EWebClient._request` is out of
scope: a request is represented by the `ApiCall` record (method, path, and
the None-filtered query parameters) and the network response is supplied by
an arbitrary function `fetch : ApiCall → α`.
-/

deriving instance DecidableEq for Except

namespace EwebMCP

/-- Python truthiness for an optional string: `None` and the empty string
are falsy, every other string is truthy (models `not x` / `any` tests in
the source). -/
def pyFalsy : Option (List Char) → Bool
  | none => true
  | some s => s.isEmpty

/-- Python `x or y` on optional strings: yields `y` exactly when `x` is
falsy (`None` or empty), else `x`. -/
def pyOr (x y : Option (List Char)) : Option (List Char) :=
  if pyFalsy x then y else x

/-- Python `str.lower()` (ASCII letters, which is all the server relies on). -/
def pyLower (s : List Char) : List Char := s.map Char.toLower

/-- `needle` is a prefix of `hay` (used to model Python `str.startswith` and
as a building block for substring search). -/
def leadsList : List Char → List Char → Bool
  | [], _ => true
  | _ :: _, [] => false
  | a :: as, b :: bs => a == b && leadsList as bs

/-- Python substring containment `needle in hay`. -/
def containsSub : List Char → List Char → Bool
  | n, [] => n.isEmpty
  | n, h :: t => leadsList n (h :: t) || containsSub n t

/-- A regex word character (`\w` over the ASCII range): letter, digit or
underscore.  Used for the `\b` boundaries of the brand pattern. -/
def isWordChar (c : Char) : Bool := c.isAlpha || c.isDigit || c == '_'

/-- A character of the brand-token character class `[A-Za-z0-9&'-]`
from the regex in `_extract_brand`. -/
def isBrandChar (c : Char) : Bool :=
  c.isAlpha || c.isDigit || c == '&' || c == Char.ofNat 39 || c == '-'

/-- The `\b` word-boundary test between the last character of a candidate
match and the character that follows it (`none` = end of string). -/
def boundaryAfter (last : Char) (next : Option Char) : Bool :=
  match next with
  | none => isWordChar last
  | some n => isWordChar last != isWordChar n

/-- Backtracking of the greedy `[A-Za-z0-9&'-]+` against the trailing `\b`:
given the reversed greedy run and the character after it, return the longest
kept length `k ≥ 1` such that a word boundary holds after the first `k`
characters of the run, or `none` when no cut works. -/
def trimRev : List Char → Option Char → Option Nat
  | [], _ => none
  | c :: rest, next =>
    if boundaryAfter c next then some (rest.length + 1) else trimRev rest (some c)

/-- The leading `\b` of the brand pattern: since the first matched character
is a capital letter (a word character), the boundary holds exactly when the
match is at the start of the string or the previous character is not a word
character. -/
def startBoundaryOk : Option Char → Bool
  | none => true
  | some p => !isWordChar p

/-- One left-to-right scan of `re.findall(r"\b([A-Z][A-Za-z0-9&'-]+)\b", text)`:
`prev` is the character before the current position (`none` at the start of
the string), matches are non-overlapping and scanning resumes after each
match.  `fuel` only bounds the recursion; `findallBrand` supplies enough for
the whole string. -/
def brandScanAux : Nat → Option Char → List Char → List (List Char)
  | 0, _, _ => []
  | _ + 1, _, [] => []
  | fuel + 1, prev, c :: rest =>
    if startBoundaryOk prev && c.isUpper then
      match trimRev (rest.takeWhile isBrandChar).reverse
          ((rest.drop (rest.takeWhile isBrandChar).length).head?) with
      | some k =>
          (c :: (rest.takeWhile isBrandChar).take k) ::
            brandScanAux fuel
              (some (((rest.takeWhile isBrandChar).take k).getLastD c)) (rest.drop k)
      | none => brandScanAux fuel (some c) rest
    else
      brandScanAux fuel (some c) rest

/-- All matches of the brand pattern `\b([A-Z][A-Za-z0-9&'-]+)\b`, in order
of first appearance in the original-case text. -/
def findallBrand (s : List Char) : List (List Char) :=
  brandScanAux (s.length + 1) none s

/-- The stop-word set checked by `_extract_brand`. -/
def stopwords : List (List Char) :=
  ["show".toList, "get".toList, "sales".toList, "inventory".toList, "stock".toList]

/-- The candidate loop of `_extract_brand`: skip candidates whose lowercase
form is a stop word, return the first remaining one. -/
def firstNonStop : List (List Char) → Option (List Char)
  | [] => none
  | c :: cs => if stopwords.contains (pyLower c) then firstNonStop cs else some c

/-- `_extract_brand` from `src/mcp_server.py`. -/
def extract_brand (text : List Char) : Option (List Char) :=
  firstNonStop (findallBrand text)

/-- The closed set of intent kinds the server understands. -/
inductive IntentKind
  | supplierStock
  | salesHistory
deriving DecidableEq

/-- The classification performed at the top of `handle_intent`: the
`if`/`elif` chain over `payload.query.lower()` (lines 94 and 106), with
`none` for the final unrecognized-intent branch. -/
def classify (query : List Char) : Option IntentKind :=
  let query_lower := pyLower query
  if (["inventory", "stock"].map String.toList).any
      (fun w => containsSub w query_lower) then
    some .supplierStock
  else if containsSub ("sale".toList) query_lower then
    some .salesHistory
  else
    none

/-- The classifier as the specification states it: rule 1 `inventory`/`stock`,
rule 2 the substring `sale`, first matching rule wins. -/
def classifySpec (query : List Char) : Option IntentKind :=
  let t := pyLower query
  if containsSub ("inventory".toList) t || containsSub ("stock".toList) t then
    some .supplierStock
  else if containsSub ("sale".toList) t then
    some .salesHistory
  else
    none

/-- The quantity-word table of `_extract_time_window` (`number_words`). -/
def numberWords : List (List Char × Nat) :=
  [("one".toList, 1), ("two".toList, 2), ("three".toList, 3), ("four".toList, 4),
   ("five".toList, 5), ("six".toList, 6), ("seven".toList, 7), ("eight".toList, 8),
   ("nine".toList, 9), ("ten".toList, 10), ("eleven".toList, 11), ("twelve".toList, 12)]

/-- A regex `\s` character over the ASCII range (space, tab, LF, VT, FF, CR),
part of the separator class `[-\s]*` of the time-window pattern. -/
def isPySpace (c : Char) : Bool := c == ' ' || (9 ≤ c.toNat && c.toNat ≤ 13)

/-- Match the quantity alternation `(\d+|one|...|twelve)` at the current
position: a greedy maximal digit run, else the first number word that is a
literal prefix here.  Returns the matched text and the rest of the input. -/
def matchQuantityAt (s : List Char) : Option (List Char × List Char) :=
  match s with
  | [] => none
  | c :: _ =>
    if c.isDigit then
      let ds := s.takeWhile Char.isDigit
      some (ds, s.drop ds.length)
    else
      numberWords.findSome? fun wv =>
        if leadsList wv.1 s then some (wv.1, s.drop wv.1.length) else none

/-- Greedy `[-\s]*` separator between quantity and unit. -/
def dropSeps (s : List Char) : List Char :=
  s.dropWhile fun c => c == '-' || isPySpace c

/-- Match the unit alternation `(day|week|month|year)` at the current
position (the optional trailing `s` is outside the capture group and does
not affect the captured unit). -/
def matchUnitAt (s : List Char) : Option (List Char) :=
  if leadsList ("day".toList) s then some ("day".toList)
  else if leadsList ("week".toList) s then some ("week".toList)
  else if leadsList ("month".toList) s then some ("month".toList)
  else if leadsList ("year".toList) s then some ("year".toList)
  else none

/-- Attempt the whole pattern
`(\d+|one|...|twelve)[-\s]*(day|week|month|year)s?` at one position,
returning the two capture groups.  No backtracking cases arise: the digit
run and the separator run are maximal and no unit starts with a digit,
separator, or another unit letter. -/
def matchQUAt (s : List Char) : Option (List Char × List Char) :=
  match matchQuantityAt s with
  | none => none
  | some (raw, rest) =>
    match matchUnitAt (dropSeps rest) with
    | none => none
    | some u => some (raw, u)

/-- `re.search` of the time-window pattern: leftmost position wins. -/
def searchQU : List Char → Option (List Char × List Char)
  | [] => matchQUAt []
  | c :: t =>
    match matchQUAt (c :: t) with
    | some r => some r
    | none => searchQU t

/-- Python `str.isdigit()` for ASCII strings: nonempty and all digits. -/
def isdigitStr (s : List Char) : Bool := !s.isEmpty && s.all Char.isDigit

/-- `int(raw)` for a digit string. -/
def pyInt (s : List Char) : Nat := s.foldl (fun a c => 10 * a + (c.toNat - 48)) 0

/-- `number_words.get(raw, 1)`: dictionary lookup with default 1. -/
def wordLookupD (raw : List Char) (d : Nat) : Nat :=
  match numberWords.lookup raw with
  | some n => n
  | none => d

/-- The quantity/unit determination of `_extract_time_window`: the regex
search over the lower-cased text, then the literal fallback phrases
`last year`, `last month`, `last week` in that order, else nothing. -/
def twQuantityUnit (t : List Char) : Option (Nat × List Char) :=
  match searchQU t with
  | some (raw, u) =>
      some ((if isdigitStr raw then pyInt raw else wordLookupD raw 1), u)
  | none =>
    if containsSub ("last year".toList) t then some (1, "year".toList)
    else if containsSub ("last month".toList) t then some (1, "month".toList)
    else if containsSub ("last week".toList) t then some (1, "week".toList)
    else none

/-- The delta, in days, computed by the `unit.startswith` chain of
`_extract_time_window` (`timedelta(weeks=q)` is `7*q` days). -/
def twDelta (q : Nat) (u : List Char) : Nat :=
  if leadsList ("day".toList) u then q
  else if leadsList ("week".toList) u then 7 * q
  else if leadsList ("month".toList) u then 30 * q
  else 365 * q

/-- The exceptions the embedded code can raise: the two `ValueError`s of
`EWebClient.__init__`, the three `HTTPException(400)`s of `handle_intent`,
the `ValueError`s of the two client methods, the `TypeError`s Python raises
while binding keyword arguments, and the two `OverflowError`s of
`_extract_time_window` (a `timedelta` whose day count exceeds 999999999,
and a `datetime` subtraction whose result falls before `datetime.min`). -/
inductive PyErr
  | valueErrorBaseUrl
  | valueErrorApiKey
  | httpSupplierIdRequired
  | httpBrandRequired
  | httpUnrecognizedIntent
  | valueErrorSupplierRequired
  | valueErrorSalesIdentifier
  | typeErrorMultipleValues (key : String)
  | typeErrorUnexpectedKw (key : String)
  | overflowTimedelta
  | overflowDateValue
deriving DecidableEq

/-- The largest day count `timedelta(days=…)` accepts; a larger magnitude
raises `OverflowError` in the constructor. -/
def timedeltaMaxDays : Nat := 999999999

/-- The tail of `_extract_time_window` once the delta in days is known:
constructing the `timedelta` raises `OverflowError` past `timedeltaMaxDays`
days; `now − delta` raises `OverflowError` when the resulting date falls
before `datetime.min` (day 0 = 0001-01-01); otherwise the window
`(now − delta, now)` is produced. -/
def windowOfDelta (now : Int) (d : Nat) : Except PyErr (Option (Int × Int)) :=
  if timedeltaMaxDays < d then .error .overflowTimedelta
  else if now - (d : Int) < 0 then .error .overflowDateValue
  else .ok (some (now - (d : Int), now))

/-- `_extract_time_window` at the level of day numbers: `now` is the current
UTC date of `datetime.utcnow()` as a day count (day 0 = 0001-01-01, always
a representable date in the program; the whole-day delta makes the time of
day irrelevant to the formatted dates).  Returns the `(start, end)` pair
before formatting, `none` for the empty dict, or the raised
`OverflowError`. -/
def extract_time_window_days (text : List Char) (now : Int) :
    Except PyErr (Option (Int × Int)) :=
  match twQuantityUnit (pyLower text) with
  | none => .ok none
  | some (q, u) => windowOfDelta now (twDelta q u)

/-- The digit character for `n % 10`. -/
def digitChar (n : Nat) : Char := Char.ofNat (48 + n % 10)

/-- Zero-padded 4-digit decimal (the `%Y` field; Python dates always have
`1 ≤ year ≤ 9999`). -/
def pad4 (n : Nat) : List Char :=
  [digitChar (n / 1000), digitChar (n / 100), digitChar (n / 10), digitChar n]

/-- Zero-padded 2-digit decimal (the `%m` and `%d` fields). -/
def pad2 (n : Nat) : List Char := [digitChar (n / 10), digitChar n]

/-- Gregorian leap-year test. -/
def isLeapYear (y : Nat) : Bool := (y % 4 == 0 && y % 100 != 0) || y % 400 == 0

/-- Length of a Gregorian year in days. -/
def daysInYear (y : Nat) : Nat := if isLeapYear y then 366 else 365

/-- Month lengths of year `y`, January first. -/
def monthLengths (y : Nat) : List Nat :=
  [31, if isLeapYear y then 29 else 28, 31, 30, 31, 30, 31, 31, 30, 31, 30, 31]

/-- Split a zero-based day-of-year into (month, day-of-month). -/
def monthFromDoy : List Nat → Nat → Nat → Nat × Nat
  | [], m, doy => (m, doy + 1)
  | len :: rest, m, doy =>
    if doy < len then (m, doy + 1) else monthFromDoy rest (m + 1) (doy - len)

/-- Split a day count into (year, zero-based day-of-year); the fuel is an
upper bound on the number of elapsed years. -/
def yearFromDays : Nat → Nat → Nat → Nat × Nat
  | 0, y, d => (y, d)
  | fuel + 1, y, d =>
    if d < daysInYear y then (y, d) else yearFromDays fuel (y + 1) (d - daysInYear y)

/-- Proleptic Gregorian calendar date of day `d` (day 0 = 0001-01-01),
mirroring `datetime.date` for the representable range. -/
def civilFromDays (d : Nat) : Nat × Nat × Nat :=
  let yd := yearFromDays (d + 1) 1 d
  let md := monthFromDoy (monthLengths yd.1) 1 yd.2
  (yd.1, md.1, md.2)

/-- `strftime("%Y-%m-%d")` of the day number `d` (day 0 = 0001-01-01).
Only reached for representable dates: the `OverflowError` guards of
`windowOfDelta` run before any formatting, exactly as in the source. -/
def formatDate (d : Nat) : List Char :=
  let c := civilFromDays d
  pad4 c.1 ++ '-' :: pad2 c.2.1 ++ '-' :: pad2 c.2.2

/-- The shape `YYYY-MM-DD`: exactly ten characters, digits everywhere except
hyphens at positions 4 and 7. -/
def isDateShape (s : List Char) : Bool :=
  match s with
  | [y1, y2, y3, y4, h1, m1, m2, h2, d1, d2] =>
    y1.isDigit && y2.isDigit && y3.isDigit && y4.isDigit && h1 == '-' &&
      m1.isDigit && m2.isDigit && h2 == '-' && d1.isDigit && d2.isDigit
  | _ => false

/-- The structured value of a Python parameter dict entry. -/
inductive PyVal
  | vStr (s : List Char)
  | vNat (n : Nat)
  | vNone
deriving DecidableEq

/-- The dict value for an optional string. -/
def optVal : Option (List Char) → PyVal
  | none => .vNone
  | some s => .vStr s

/-- `_extract_time_window` itself: either a raised `OverflowError`, or the
returned dict — empty, or with both `start_date` and `end_date` formatted
as `YYYY-MM-DD`.  On the window path both day numbers are nonnegative (the
underflow guard ran), so `toNat` is exact. -/
def extract_time_window (text : List Char) (now : Int) :
    Except PyErr (List (String × PyVal)) :=
  match extract_time_window_days text now with
  | .error e => .error e
  | .ok none => .ok []
  | .ok (some se) =>
    .ok [("start_date", .vStr (formatDate se.1.toNat)),
         ("end_date", .vStr (formatDate se.2.toNat))]

/-- The environment variables read by `EWebClient.__init__` via `os.getenv`
(`None` when unset; possibly the empty string). -/
structure ServerEnv where
  eweb_base_url : Option (List Char)
  eweb_api_key : Option (List Char)
  eweb_account_id : Option (List Char)
  eweb_default_supplier_id : Option (List Char)

/-- The `EWebCredentials` dataclass from `src/eweb_client.py`. -/
structure EWebCredentials where
  base_url : List Char
  api_key : List Char
  account_id : Option (List Char)
  default_supplier_id : Option (List Char)
deriving DecidableEq

/-- Python `str.rstrip("/")`: drop all trailing slashes. -/
def rstripSlash (s : List Char) : List Char :=
  (s.reverse.dropWhile (fun c => c == '/')).reverse

/-- `EWebClient.__init__`: each argument falls back to its environment
variable via `or`, then the base URL and API key are required (truthy) or a
`ValueError` is raised; the base URL is stored right-stripped of slashes. -/
def clientInit (base_url api_key account_id default_supplier_id : Option (List Char))
    (env : ServerEnv) : Except PyErr EWebCredentials :=
  let b := pyOr base_url env.eweb_base_url
  let k := pyOr api_key env.eweb_api_key
  let a := pyOr account_id env.eweb_account_id
  let d := pyOr default_supplier_id env.eweb_default_supplier_id
  if pyFalsy b then .error .valueErrorBaseUrl
  else if pyFalsy k then .error .valueErrorApiKey
  else .ok ⟨rstripSlash (b.getD []), k.getD [], a, d⟩

/-- The observable effect of `EWebClient._request`: the HTTP method, the
path, and the query parameters after the `v is not None` filter.  The URL
prefixing, auth headers, and the network round trip are out of scope. -/
structure ApiCall where
  method : String
  path : String
  params : List (String × PyVal)
deriving DecidableEq

/-- Build an `ApiCall` the way `_request` does: filter out `None` values. -/
def apiRequest (method path : String) (params : List (String × PyVal)) : ApiCall :=
  ⟨method, path, params.filter (fun kv => !(kv.2 == PyVal.vNone))⟩

/-- `EWebClient.get_supplier_stock`: supplier falls back to the configured
default, a falsy supplier raises `ValueError`, then the stock-lookup request
is issued. -/
def get_supplier_stock (cred : EWebCredentials) (supplier_id brand : Option (List Char))
    (page pageSize : Nat) : Except PyErr ApiCall :=
  let sid := pyOr supplier_id cred.default_supplier_id
  if pyFalsy sid then .error .valueErrorSupplierRequired
  else
    .ok (apiRequest "GET" "/inventory/supplier-stock"
      [("supplierId", optVal sid), ("brand", optVal brand),
       ("page", .vNat page), ("pageSize", .vNat pageSize)])

/-- `EWebClient.get_sales_history`: at least one of `sku`, `upc`, `brand`
must be truthy, then the sales-history request is issued. -/
def get_sales_history (_cred : EWebCredentials)
    (sku upc brand start_date end_date location_id : Option (List Char)) :
    Except PyErr ApiCall :=
  if !([sku, upc, brand].any (fun v => !pyFalsy v)) then
    .error .valueErrorSalesIdentifier
  else
    .ok (apiRequest "GET" "/sales/history"
      [("sku", optVal sku), ("upc", optVal upc), ("brand", optVal brand),
       ("startDate", optVal start_date), ("endDate", optVal end_date),
       ("locationId", optVal location_id)])

/-- The keyword parameters accepted by `get_sales_history`. -/
def salesSigKeys : List String :=
  ["sku", "upc", "brand", "start_date", "end_date", "location_id"]

/-- Python keyword-argument binding for a call `f(k=v, **splat)` against a
keyword-only signature: a splat key that repeats an explicit keyword raises
`TypeError` (multiple values), an unknown splat key raises `TypeError`
(unexpected keyword), otherwise the bindings merge. -/
def mergeKwargs (sig : List String) (explicit splat : List (String × PyVal)) :
    Except PyErr (List (String × PyVal)) :=
  match splat.find? (fun kv => explicit.any (fun e => e.1 == kv.1)) with
  | some kv => .error (.typeErrorMultipleValues kv.1)
  | none =>
    match splat.find? (fun kv => !(sig.contains kv.1)) with
    | some kv => .error (.typeErrorUnexpectedKw kv.1)
    | none => .ok (explicit ++ splat)

/-- Read an optional-string keyword out of merged bindings (absent keywords
keep their `None` default). -/
def kwOpt (kw : List (String × PyVal)) (key : String) : Option (List Char) :=
  match kw.lookup key with
  | some (.vStr s) => some s
  | _ => none

/-- The `IntentResponse` model returned on success: intent name, resolved
parameter dict, and the payload the collaborator returned. -/
structure IntentResponse (α : Type) where
  intent : String
  parameters : List (String × PyVal)
  data : α
deriving DecidableEq

/-- `handle_intent` from `src/mcp_server.py`.  `env` holds the environment
variables, `supplier_id_override` is `payload.supplier_id`, `now` is the
current UTC day of `datetime.utcnow()`, and `fetch` produces the payload of
an issued request.  The result pairs the normal/exceptional outcome with the
list of collaborator calls actually dispatched. -/
def handle_intent {α : Type} (env : ServerEnv) (query : List Char)
    (supplier_id_override : Option (List Char)) (now : Int) (fetch : ApiCall → α) :
    Except PyErr (IntentResponse α) × List ApiCall :=
  match clientInit none none none none env with
  | .error e => (.error e, [])
  | .ok client =>
    match classify query with
    | some .supplierStock =>
      let supplier_id := pyOr supplier_id_override client.default_supplier_id
      let brand := extract_brand query
      if pyFalsy supplier_id then (.error .httpSupplierIdRequired, [])
      else
        match get_supplier_stock client supplier_id brand 1 100 with
        | .error e => (.error e, [])
        | .ok call =>
          (.ok ⟨"supplier_stock",
              [("supplier_id", optVal supplier_id), ("brand", optVal brand)],
              fetch call⟩,
           [call])
    | some .salesHistory =>
      match extract_time_window query now with
      | .error e => (.error e, [])
      | .ok tw =>
        let brand := extract_brand query
        let params := tw ++ [("brand", optVal brand)]
        if pyFalsy brand then (.error .httpBrandRequired, [])
        else
          match mergeKwargs salesSigKeys [("brand", optVal brand)] params with
          | .error e => (.error e, [])
          | .ok kw =>
            match get_sales_history client (kwOpt kw "sku") (kwOpt kw "upc")
                (kwOpt kw "brand") (kwOpt kw "start_date") (kwOpt kw "end_date")
                (kwOpt kw "location_id") with
            | .error e => (.error e, [])
            | .ok call => (.ok ⟨"sales_history", params, fetch call⟩, [call])
    | none => (.error .httpUnrecognizedIntent, [])

/-- The stock-lookup call as a function of the resolved (optional) supplier
value, exactly as `get_supplier_stock` builds it. -/
def stockCallOpt (sid brand : Option (List Char)) : ApiCall :=
  apiRequest "GET" "/inventory/supplier-stock"
    [("supplierId", optVal sid), ("brand", optVal brand),
     ("page", .vNat 1), ("pageSize", .vNat 100)]

/-- The stock-lookup call dispatched on the happy supplier-stock path. -/
def stockCall (sid : List Char) (brand : Option (List Char)) : ApiCall :=
  apiRequest "GET" "/inventory/supplier-stock"
    [("supplierId", PyVal.vStr sid), ("brand", optVal brand),
     ("page", .vNat 1), ("pageSize", .vNat 100)]

/-- The time units named by the specification of the time-window extractor. -/
inductive TimeUnit
  | day
  | week
  | month
  | year
deriving DecidableEq

/-- Days per unit as the specification states them: day 1, week 7,
month 30 (fixed approximation), year 365 (fixed approximation). -/
def unitDays : TimeUnit → Nat
  | .day => 1
  | .week => 7
  | .month => 30
  | .year => 365

/-- Interpret a captured unit name as a `TimeUnit`. -/
def unitOfName (u : List Char) : Option TimeUnit :=
  if u = "day".toList then some .day
  else if u = "week".toList then some .week
  else if u = "month".toList then some .month
  else if u = "year".toList then some .year
  else none

/-- The time-window extractor as the amended specification words it: search
the lower-cased text for quantity-plus-unit, fall back to the literal
phrases `last year`, `last month`, `last week` in that priority order
(quantity 1), else no window; the delta is `quantity × unitDays`; past the
`timedelta` limit, or below the first representable date, the code raises
`OverflowError`; otherwise the window is `(now − delta, now)`. -/
def timeWindowSpec (text : List Char) (now : Int) : Except PyErr (Option (Int × Int)) :=
  let t := pyLower text
  match searchQU t with
  | some (raw, u) =>
    match unitOfName u with
    | some un =>
        windowOfDelta now
          ((if isdigitStr raw then pyInt raw else wordLookupD raw 1) * unitDays un)
    | none => .ok none
  | none =>
    if containsSub ("last year".toList) t then windowOfDelta now (1 * 365)
    else if containsSub ("last month".toList) t then windowOfDelta now (1 * 30)
    else if containsSub ("last week".toList) t then windowOfDelta now (1 * 7)
    else .ok none


/-! ## Helper lemmas -/

/-- The candidate loop of `_extract_brand` returns the first candidate whose
lowercase form is not a stop word. -/
theorem firstNonStop_eq_find (l : List (List Char)) :
    firstNonStop l = l.find? (fun c => !(stopwords.contains (pyLower c))) := by
  induction l with
  | nil => rfl
  | cons c cs ih =>
    by_cases hc : pyLower c ∈ stopwords
    · simp [firstNonStop, List.find?_cons, hc, ih]
    · simp [firstNonStop, List.find?_cons, hc]

/-- Whatever the candidate loop returns was one of the candidates. -/
theorem firstNonStop_mem (l : List (List Char)) (b : List Char)
    (h : firstNonStop l = some b) : b ∈ l := by
  induction l with
  | nil => simp [firstNonStop] at h
  | cons c cs ih =>
    unfold firstNonStop at h
    split at h
    · exact List.mem_cons_of_mem _ (ih h)
    · cases h; exact List.mem_cons_self _ _

/-- The candidate loop never returns a stop word. -/
theorem firstNonStop_not_stop (l : List (List Char)) (b : List Char)
    (h : firstNonStop l = some b) : stopwords.contains (pyLower b) = false := by
  induction l with
  | nil => simp [firstNonStop] at h
  | cons c cs ih =>
    unfold firstNonStop at h
    split at h
    · exact ih h
    · rename_i hc
      cases h
      simpa using hc

/-- Every match produced by the brand scanner is nonempty (it starts with
its capital letter). -/
theorem brandScanAux_ne_nil (fuel : Nat) :
    ∀ (p : Option Char) (s : List Char) (b : List Char),
      b ∈ brandScanAux fuel p s → b ≠ [] := by
  induction fuel with
  | zero => intro p s b h; simp [brandScanAux] at h
  | succ f ih =>
    intro p s b h
    cases s with
    | nil => simp [brandScanAux] at h
    | cons c rest =>
      unfold brandScanAux at h
      split at h
      · split at h
        · rcases List.mem_cons.mp h with h | h
          · subst h; exact List.cons_ne_nil _ _
          · exact ih _ _ _ h
        · exact ih _ _ _ h
      · exact ih _ _ _ h

/-- A brand returned by `_extract_brand` is a nonempty string. -/
theorem extract_brand_ne_nil (t b : List Char) (h : extract_brand t = some b) :
    b ≠ [] :=
  brandScanAux_ne_nil _ _ _ _ (firstNonStop_mem _ _ h)

/-- The unit captured by a successful unit match is one of the four literal
unit names. -/
theorem matchUnitAt_cases (s u : List Char) (h : matchUnitAt s = some u) :
    u = "day".toList ∨ u = "week".toList ∨ u = "month".toList ∨ u = "year".toList := by
  unfold matchUnitAt at h
  split_ifs at h <;> simp_all

/-- The unit captured by a successful pattern attempt is one of the four
literal unit names. -/
theorem matchQUAt_unit (s r u : List Char) (h : matchQUAt s = some (r, u)) :
    u = "day".toList ∨ u = "week".toList ∨ u = "month".toList ∨ u = "year".toList := by
  unfold matchQUAt at h
  cases hq : matchQuantityAt s with
  | none => rw [hq] at h; cases h
  | some p =>
    obtain ⟨raw, rest⟩ := p
    rw [hq] at h
    dsimp only at h
    cases hu : matchUnitAt (dropSeps rest) with
    | none => rw [hu] at h; cases h
    | some u0 =>
      rw [hu] at h
      cases h
      exact matchUnitAt_cases _ _ hu

/-- The unit captured by a successful search is one of the four literal
unit names. -/
theorem searchQU_unit (t : List Char) :
    ∀ r u, searchQU t = some (r, u) →
      u = "day".toList ∨ u = "week".toList ∨ u = "month".toList ∨ u = "year".toList := by
  induction t with
  | nil => intro r u h; exact matchQUAt_unit _ _ _ h
  | cons c t ih =>
    intro r u h
    unfold searchQU at h
    cases hm : matchQUAt (c :: t) with
    | some p => rw [hm] at h; cases h; exact matchQUAt_unit _ _ _ hm
    | none => rw [hm] at h; exact ih r u h

/-- `timedelta` days for the unit `day`. -/
theorem twDelta_day (q : Nat) : twDelta q ("day".toList) = q * 1 := by
  unfold twDelta
  rw [if_pos (by decide)]
  exact (Nat.mul_one q).symm

/-- `timedelta` days for the unit `week`. -/
theorem twDelta_week (q : Nat) : twDelta q ("week".toList) = q * 7 := by
  unfold twDelta
  rw [if_neg (by decide), if_pos (by decide)]
  exact Nat.mul_comm 7 q

/-- `timedelta` days for the unit `month`. -/
theorem twDelta_month (q : Nat) : twDelta q ("month".toList) = q * 30 := by
  unfold twDelta
  rw [if_neg (by decide), if_neg (by decide), if_pos (by decide)]
  exact Nat.mul_comm 30 q

/-- `timedelta` days for the unit `year`. -/
theorem twDelta_year (q : Nat) : twDelta q ("year".toList) = q * 365 := by
  unfold twDelta
  rw [if_neg (by decide), if_neg (by decide), if_neg (by decide)]
  exact Nat.mul_comm 365 q

/-- For a unit produced by the search, the `startswith` chain of the source
computes the same delta as the quantity-times-unit table of the
specification. -/
theorem unit_delta_spec (q : Nat) (u : List Char)
    (h : u = "day".toList ∨ u = "week".toList ∨ u = "month".toList ∨ u = "year".toList) :
    ∃ un : TimeUnit, unitOfName u = some un ∧ twDelta q u = q * unitDays un := by
  rcases h with rfl | rfl | rfl | rfl
  · exact ⟨.day, by decide, twDelta_day q⟩
  · exact ⟨.week, by decide, twDelta_week q⟩
  · exact ⟨.month, by decide, twDelta_month q⟩
  · exact ⟨.year, by decide, twDelta_year q⟩

/-- `digitChar` always yields a decimal digit character. -/
theorem digitChar_isDigit (n : Nat) : (digitChar n).isDigit = true := by
  have h : n % 10 < 10 := Nat.mod_lt _ (by norm_num)
  have hall : ∀ k, k < 10 → (Char.ofNat (48 + k)).isDigit = true := by
    intro k hk
    interval_cases k <;> decide
  exact hall _ h

/-- A formatted date always has the shape `YYYY-MM-DD`. -/
theorem isDateShape_formatDate (d : Nat) : isDateShape (formatDate d) = true := by
  unfold formatDate
  simp [pad4, pad2, isDateShape, digitChar_isDigit]

/-- Any window produced by `_extract_time_window` is `(now − delta, now)`
for a nonnegative day count `delta`, and the start is itself a nonnegative
day number (the underflow guard ran). -/
theorem extract_time_window_days_shape (t : List Char) (now s e : Int)
    (h : extract_time_window_days t now = .ok (some (s, e))) :
    ∃ dn : Nat, s = now - (dn : Int) ∧ e = now ∧ 0 ≤ s := by
  unfold extract_time_window_days at h
  cases hq : twQuantityUnit (pyLower t) with
  | none => rw [hq] at h; cases h
  | some p =>
    obtain ⟨q, u⟩ := p
    rw [hq] at h
    dsimp only at h
    unfold windowOfDelta at h
    split_ifs at h with h1 h2
    cases h
    exact ⟨twDelta q u, rfl, rfl, not_lt.mp h2⟩

/-- The only exceptions `_extract_time_window` can raise are the two
overflow errors. -/
theorem extract_time_window_days_error_cases (t : List Char) (now : Int) (e : PyErr)
    (h : extract_time_window_days t now = .error e) :
    e = .overflowTimedelta ∨ e = .overflowDateValue := by
  unfold extract_time_window_days at h
  cases hq : twQuantityUnit (pyLower t) with
  | none => rw [hq] at h; cases h
  | some p =>
    obtain ⟨q, u⟩ := p
    rw [hq] at h
    dsimp only at h
    unfold windowOfDelta at h
    split_ifs at h
    · cases h; exact Or.inl rfl
    · cases h; exact Or.inr rfl

/-- The only exceptions the dict-level `_extract_time_window` can raise are
the two overflow errors. -/
theorem extract_time_window_error_cases (t : List Char) (now : Int) (e : PyErr)
    (h : extract_time_window t now = .error e) :
    e = .overflowTimedelta ∨ e = .overflowDateValue := by
  unfold extract_time_window at h
  cases hd : extract_time_window_days t now with
  | error e0 =>
    rw [hd] at h
    dsimp only at h
    have he := Except.error.inj h
    subst he
    exact extract_time_window_days_error_cases t now _ hd
  | ok o =>
    rw [hd] at h
    cases o with
    | none => cases h
    | some se => cases h

/-- `x or y` keeps `x` when `x` is absent on the left (`None or y` is `y`). -/
theorem pyOr_none_left (x : Option (List Char)) : pyOr none x = x := rfl

/-- `x or y` keeps `x` when `x` is truthy. -/
theorem pyOr_of_truthy (a b : Option (List Char)) (h : pyFalsy a = false) :
    pyOr a b = a := by
  simp [pyOr, h]

/-- Truthiness of `a or b`: falsy exactly when both sides are falsy. -/
theorem pyFalsy_pyOr (a b : Option (List Char)) :
    pyFalsy (pyOr a b) = (pyFalsy a && pyFalsy b) := by
  cases ha : pyFalsy a <;> simp [pyOr, ha]

/-- A nonempty string is truthy. -/
theorem pyFalsy_some_ne_nil (s : List Char) (h : s ≠ []) :
    pyFalsy (some s) = false := by
  cases s with
  | nil => exact absurd rfl h
  | cons c cs => rfl

/-- With a configured base URL and API key, `EWebClient()` constructs
credentials straight from the environment. -/
theorem clientInit_ok (env : ServerEnv) (hb : pyFalsy env.eweb_base_url = false)
    (hk : pyFalsy env.eweb_api_key = false) :
    clientInit none none none none env =
      .ok ⟨rstripSlash (env.eweb_base_url.getD []), env.eweb_api_key.getD [],
        env.eweb_account_id, env.eweb_default_supplier_id⟩ := by
  simp [clientInit, pyOr_none_left, hb, hk]

/-- A dict returned (not raised) by `_extract_time_window` is empty or
carries exactly the two window keys. -/
theorem extract_time_window_ok_cases (t : List Char) (now : Int)
    (tw : List (String × PyVal)) (h : extract_time_window t now = .ok tw) :
    tw = [] ∨
      ∃ a b, tw = [("start_date", PyVal.vStr a), ("end_date", PyVal.vStr b)] := by
  unfold extract_time_window at h
  cases hd : extract_time_window_days t now with
  | error e0 => rw [hd] at h; cases h
  | ok o =>
    rw [hd] at h
    cases o with
    | none => cases h; exact Or.inl rfl
    | some se => cases h; exact Or.inr ⟨_, _, rfl⟩

/-- Binding `get_sales_history(brand=…, **params)` always raises `TypeError`
when `params` is a time-window dict updated with the `brand` key. -/
theorem mergeKwargs_sales (tw : List (String × PyVal))
    (h : tw = [] ∨ ∃ a b, tw = [("start_date", PyVal.vStr a), ("end_date", PyVal.vStr b)])
    (v w : PyVal) :
    mergeKwargs salesSigKeys [("brand", v)] (tw ++ [("brand", w)]) =
      .error (.typeErrorMultipleValues "brand") := by
  rcases h with h | ⟨a, b, h⟩ <;> subst h <;> rfl

/-! ## Claims -/

/-- C9.  The classifier, the brand extractor, and the time-window extractor
are pure functions of their stated inputs: evaluating any of them twice on
the same text (and the same `now`) yields identical results. -/
theorem classifier_and_extractors_deterministic (t : List Char) (now : Int) :
    classify t = classify t ∧ extract_brand t = extract_brand t ∧
      extract_time_window t now = extract_time_window t now :=
  ⟨rfl, rfl, rfl⟩

/-- C2.  Classification follows the fixed priority order stated by the
specification: `inventory`/`stock` gives `SupplierStock`, else the substring
`sale` gives `SalesHistory`, else classification fails; in particular any
query containing both `stock` and `sale` is classified `SupplierStock`. -/
theorem classify_priority_order :
    (∀ q, classify q = classifySpec q) ∧
    (∀ q, containsSub ("stock".toList) (pyLower q) = true →
      containsSub ("sale".toList) (pyLower q) = true →
      classify q = some .supplierStock) := by
  constructor
  · intro q
    simp [classify, classifySpec]
  · intro q h1 h2
    simp [classify, h1]
    exact fun _ => h1

/-- Witness for C2 at a concrete ambiguous query. -/
theorem classify_priority_order_witness :
    containsSub ("stock".toList) (pyLower ("stock sale".toList)) = true ∧
    containsSub ("sale".toList) (pyLower ("stock sale".toList)) = true ∧
    classify ("stock sale".toList) = some .supplierStock :=
  ⟨by decide, by decide,
    classify_priority_order.2 ("stock sale".toList) (by decide) (by decide)⟩

/-- C8.  Whenever `_extract_brand` returns a value, the lowercase form of
that value is not in the reserved stop-word set. -/
theorem extract_brand_never_stopword (t b : List Char)
    (h : extract_brand t = some b) : stopwords.contains (pyLower b) = false :=
  firstNonStop_not_stop _ _ h

/-- Witness for C8 at a concrete query. -/
theorem extract_brand_never_stopword_witness :
    extract_brand ("Get Rolex stock".toList) = some ("Rolex".toList) ∧
    stopwords.contains (pyLower ("Rolex".toList)) = false :=
  ⟨by decide,
    extract_brand_never_stopword ("Get Rolex stock".toList) ("Rolex".toList) (by decide)⟩

/-- C5.  `_extract_brand` returns the first token of the brand pattern, in
order of first appearance in the original-case text, whose lowercase form is
not a stop word (absent when no token qualifies); on the specification
example it extracts `TechCo`. -/
theorem extract_brand_first_qualifying :
    (∀ t, extract_brand t =
      (findallBrand t).find? (fun c => !(stopwords.contains (pyLower c)))) ∧
    extract_brand ("Show TechCo sales last 2 weeks".toList) = some ("TechCo".toList) :=
  ⟨fun t => firstNonStop_eq_find (findallBrand t), by decide⟩

/-- C1.  The sales-history path of `handle_intent` never reaches the
collaborator: because `params` already contains the key `brand`, the call
`client.get_sales_history(brand=brand, **params)` binds `brand` twice and
raises `TypeError` before dispatch, instead of returning the wrapped
payload.  Concretely, a correctly configured server with the query
`Show TechCo sales` raises and dispatches nothing. -/
theorem sales_path_duplicate_brand_kwarg :
    handle_intent (α := Nat)
      ⟨some ("http://e".toList), some ("k".toList), none, none⟩
      ("Show TechCo sales".toList) none 0 (fun _ => 0) =
    (.error (.typeErrorMultipleValues "brand"), []) := by decide

/-- C6 counterexample.  The time-window pattern can match and yet no window
is resolved: at `sales 1000000000 days` the `timedelta` constructor raises
`OverflowError`, and at `sales last 3000 years` (from day 739900, in 2026)
the subtraction reaches below the first representable date and raises
`OverflowError`, so neither query yields `(now − delta, now)`. -/
theorem time_window_overflow_counterexample :
    searchQU (pyLower ("sales 1000000000 days".toList)) =
      some ("1000000000".toList, "day".toList) ∧
    extract_time_window_days ("sales 1000000000 days".toList) 739900 =
      .error .overflowTimedelta ∧
    extract_time_window_days ("sales last 3000 years".toList) 739900 =
      .error .overflowDateValue :=
  ⟨by decide, by decide, by decide⟩

/-- C6 (amended).  `_extract_time_window` computes exactly the window the
specification describes: quantity-plus-unit search first, then the literal
fallback phrases in priority order, delta `quantity × {1,7,30,365}` days;
when the delta exceeds the `timedelta` limit of 999999999 days, or
`now − delta` falls before the first representable date, the code raises
`OverflowError` and no window is returned; otherwise the window is
`(now − delta, now)` — on the specification examples, `three months`
yields `(now − 90, now)` and `hello world` yields no window. -/
theorem time_window_algorithm :
    (∀ t now, extract_time_window_days t now = timeWindowSpec t now) ∧
    extract_time_window_days ("three months".toList) 739900 =
      .ok (some (739810, 739900)) ∧
    (∀ now : Int, extract_time_window_days ("hello world".toList) now = .ok none) := by
  refine ⟨?_, by decide, fun now => rfl⟩
  intro t now
  unfold extract_time_window_days timeWindowSpec twQuantityUnit
  dsimp only
  cases hs : searchQU (pyLower t) with
  | none =>
    dsimp only
    split_ifs
    · dsimp only
      rw [twDelta_year]
    · dsimp only
      rw [twDelta_month]
    · dsimp only
      rw [twDelta_week]
    · rfl
  | some p =>
    obtain ⟨raw, u⟩ := p
    dsimp only
    obtain ⟨un, hun, hdelta⟩ :=
      unit_delta_spec (if isdigitStr raw then pyInt raw else wordLookupD raw 1) u
        (searchQU_unit _ _ _ hs)
    rw [hun]
    dsimp only
    rw [hdelta]

/-- C7.  `_extract_time_window` never returns exactly one bound: every
outcome is a raised `OverflowError` (no bounds), the empty dict (no
bounds), or a dict carrying both `start_date` and `end_date`; returned
bounds are `YYYY-MM-DD` calendar dates built from nonnegative day numbers,
with start ≤ end. -/
theorem time_window_both_or_neither (t : List Char) (now : Int) :
    (∃ e, extract_time_window t now = .error e) ∨
    extract_time_window t now = .ok [] ∨
    ∃ s e : Int, extract_time_window_days t now = .ok (some (s, e)) ∧
      0 ≤ s ∧ s ≤ e ∧
      extract_time_window t now =
        .ok [("start_date", PyVal.vStr (formatDate s.toNat)),
             ("end_date", PyVal.vStr (formatDate e.toNat))] ∧
      isDateShape (formatDate s.toNat) = true ∧
      isDateShape (formatDate e.toNat) = true := by
  cases hd : extract_time_window_days t now with
  | error e0 =>
    left
    refine ⟨e0, ?_⟩
    unfold extract_time_window
    rw [hd]
  | ok o =>
    cases o with
    | none =>
      right; left
      unfold extract_time_window
      rw [hd]
    | some se =>
      obtain ⟨s, e⟩ := se
      right; right
      obtain ⟨dn, hs, he, hnn⟩ := extract_time_window_days_shape t now s e hd
      refine ⟨s, e, rfl, hnn, ?_, ?_,
        isDateShape_formatDate s.toNat, isDateShape_formatDate e.toNat⟩
      · rw [hs, he]
        exact sub_le_self now (Int.natCast_nonneg dn)
      · unfold extract_time_window
        rw [hd]

/-- C10.  `EWebClient()` is constructed before any classification or entity
validation: with the base URL (or the API key) unconfigured, every query
fails with the client's `ValueError`, never with the unrecognized-intent or
missing-entity errors, and nothing is dispatched. -/
theorem config_error_preempts (env : ServerEnv) (q : List Char)
    (ov : Option (List Char)) (now : Int) {α : Type} (fetch : ApiCall → α) :
    (pyFalsy env.eweb_base_url = true →
      handle_intent env q ov now fetch = (.error .valueErrorBaseUrl, [])) ∧
    (pyFalsy env.eweb_base_url = false → pyFalsy env.eweb_api_key = true →
      handle_intent env q ov now fetch = (.error .valueErrorApiKey, [])) := by
  constructor
  · intro hb
    simp [handle_intent, clientInit, pyOr_none_left, hb]
  · intro hb hk
    simp [handle_intent, clientInit, pyOr_none_left, hb, hk]

/-- Witness for C10: an unclassifiable query still gets the configuration
error when the base URL is missing. -/
theorem config_error_preempts_witness :
    handle_intent (α := Nat) ⟨none, none, none, none⟩
      ("total gibberish".toList) none 0 (fun _ => 0) =
    (.error .valueErrorBaseUrl, []) :=
  (config_error_preempts ⟨none, none, none, none⟩ ("total gibberish".toList)
    none 0 (fun _ => 0)).1 rfl

/-- C4 counterexample.  The sales path runs `_extract_time_window` before
the brand check, so a sales-history query whose brand extraction returns
absent can still fail with `OverflowError` instead of the brand-required
error: at `sales last 3000 years` (day 739900, in 2026, configured client)
the subtraction reaches below the first representable date. -/
theorem missing_brand_masked_by_overflow :
    classify ("sales last 3000 years".toList) = some .salesHistory ∧
    extract_brand ("sales last 3000 years".toList) = none ∧
    handle_intent (α := Nat)
      ⟨some ("http://e".toList), some ("k".toList), none, none⟩
      ("sales last 3000 years".toList) none 739900 (fun _ => 0) =
      (.error .overflowDateValue, []) ∧
    (Except.error .overflowDateValue : Except PyErr (IntentResponse Nat)) ≠
      .error .httpBrandRequired :=
  ⟨by decide, by decide, by decide, by decide⟩

/-- C4 (amended).  With a configured client, `handle_intent` fails with the
supplier-required error exactly when the intent is supplier-stock and
neither the override nor the configured default is a nonempty supplier id;
it fails with the brand-required error exactly when the intent is
sales-history, the time-window extraction completes without raising
`OverflowError`, and brand extraction returned nothing; in both cases no
collaborator call is dispatched and no default is substituted for the
missing entity. -/
theorem missing_entity_errors (env : ServerEnv) (q : List Char)
    (ov : Option (List Char)) (now : Int) {α : Type} (fetch : ApiCall → α)
    (hb : pyFalsy env.eweb_base_url = false) (hk : pyFalsy env.eweb_api_key = false) :
    (((handle_intent env q ov now fetch).1 = .error .httpSupplierIdRequired) ↔
      (classify q = some .supplierStock ∧ pyFalsy ov = true ∧
        pyFalsy env.eweb_default_supplier_id = true)) ∧
    (((handle_intent env q ov now fetch).1 = .error .httpBrandRequired) ↔
      (classify q = some .salesHistory ∧
        (∃ tw, extract_time_window q now = .ok tw) ∧ extract_brand q = none)) ∧
    (((handle_intent env q ov now fetch).1 = .error .httpSupplierIdRequired ∨
      (handle_intent env q ov now fetch).1 = .error .httpBrandRequired) →
      (handle_intent env q ov now fetch).2 = []) := by
  have hci := clientInit_ok env hb hk
  cases hcl : classify q with
  | none =>
    have hmain : handle_intent env q ov now fetch = (.error .httpUnrecognizedIntent, []) := by
      simp [handle_intent, hci, hcl]
    refine ⟨?_, ?_, ?_⟩ <;> simp [hmain, hcl]
  | some ik =>
    cases ik with
    | supplierStock =>
      cases hsup : pyFalsy (pyOr ov env.eweb_default_supplier_id) with
      | true =>
        have hmain : handle_intent env q ov now fetch =
            (.error .httpSupplierIdRequired, []) := by
          simp [handle_intent, hci, hcl, hsup]
        have hfal := pyFalsy_pyOr ov env.eweb_default_supplier_id
        rw [hsup] at hfal
        have h12 : pyFalsy ov = true ∧ pyFalsy env.eweb_default_supplier_id = true := by
          simpa using hfal.symm
        obtain ⟨h1, h2⟩ := h12
        refine ⟨?_, ?_, ?_⟩
        · simp [hmain, h1, h2]
        · simp [hmain]
        · intro _
          simp [hmain]
      | false =>
        have hmain : handle_intent env q ov now fetch =
            (.ok ⟨"supplier_stock",
                [("supplier_id", optVal (pyOr ov env.eweb_default_supplier_id)),
                 ("brand", optVal (extract_brand q))],
                fetch (stockCallOpt (pyOr ov env.eweb_default_supplier_id)
                  (extract_brand q))⟩,
             [stockCallOpt (pyOr ov env.eweb_default_supplier_id) (extract_brand q)]) := by
          simp [handle_intent, hci, hcl, hsup, get_supplier_stock,
            pyOr_of_truthy _ _ hsup, stockCallOpt]
        refine ⟨?_, ?_, ?_⟩
        · constructor
          · intro hfalse
            simp [hmain] at hfalse
          · rintro ⟨-, h1, h2⟩
            have hco := pyFalsy_pyOr ov env.eweb_default_supplier_id
            rw [h1, h2, hsup] at hco
            simp at hco
        · constructor
          · intro hfalse
            simp [hmain] at hfalse
          · rintro ⟨hcl2, -⟩
            simp at hcl2
        · intro hor
          rcases hor with hfalse | hfalse <;> simp [hmain] at hfalse
    | salesHistory =>
      cases htw : extract_time_window q now with
      | error e0 =>
        have hmain : handle_intent env q ov now fetch = (.error e0, []) := by
          simp [handle_intent, hci, hcl, htw]
        have hne1 : e0 ≠ .httpSupplierIdRequired := by
          rcases extract_time_window_error_cases q now e0 htw with rfl | rfl <;> decide
        have hne2 : e0 ≠ .httpBrandRequired := by
          rcases extract_time_window_error_cases q now e0 htw with rfl | rfl <;> decide
        refine ⟨?_, ?_, ?_⟩
        · constructor
          · intro hfalse
            simp [hmain] at hfalse
            exact absurd hfalse hne1
          · rintro ⟨hcl2, -⟩
            simp at hcl2
        · constructor
          · intro hfalse
            simp [hmain] at hfalse
            exact absurd hfalse hne2
          · rintro ⟨-, ⟨tw, htw2⟩, -⟩
            cases htw2
        · intro _
          simp [hmain]
      | ok tw =>
        cases hbr : extract_brand q with
        | none =>
          have hmain : handle_intent env q ov now fetch =
              (.error .httpBrandRequired, []) := by
            simp [handle_intent, hci, hcl, htw, hbr, pyFalsy]
          refine ⟨?_, ?_, ?_⟩
          · constructor
            · intro hfalse
              simp [hmain] at hfalse
            · rintro ⟨hcl2, -⟩
              simp at hcl2
          · constructor
            · intro _
              exact ⟨rfl, ⟨tw, rfl⟩, rfl⟩
            · intro _
              simp [hmain]
          · intro _
            simp [hmain]
        | some b =>
          have hpf : pyFalsy (some b) = false :=
            pyFalsy_some_ne_nil b (extract_brand_ne_nil q b hbr)
          have hmerge := mergeKwargs_sales tw
            (extract_time_window_ok_cases q now tw htw) (optVal (some b)) (optVal (some b))
          have hmain : handle_intent env q ov now fetch =
              (.error (.typeErrorMultipleValues "brand"), []) := by
            simp [handle_intent, hci, hcl, htw, hbr, hpf, hmerge]
          refine ⟨?_, ?_, ?_⟩
          · constructor
            · intro hfalse
              simp [hmain] at hfalse
            · rintro ⟨hcl2, -⟩
              simp at hcl2
          · constructor
            · intro hfalse
              simp [hmain] at hfalse
            · rintro ⟨-, -, hbr2⟩
              cases hbr2
          · intro hor
            rcases hor with hfalse | hfalse <;> simp [hmain] at hfalse

/-- Witness for C4: a stock query with no override and no configured
default fails with the supplier-required error. -/
theorem missing_entity_errors_witness :
    (handle_intent (α := Nat)
      ⟨some ("http://e".toList), some ("k".toList), none, none⟩
      ("need stock".toList) none 0 (fun _ => 0)).1 = .error .httpSupplierIdRequired :=
  (missing_entity_errors ⟨some ("http://e".toList), some ("k".toList), none, none⟩
    ("need stock".toList) none 0 (fun _ => 0) (by decide) (by decide)).1.mpr
    ⟨by decide, rfl, rfl⟩

/-- C3 counterexample.  An override that is present but empty is ignored in
favour of the configured default: with override `some ""` and default
`"S1"`, the resolved parameters carry `"S1"`, not the present override. -/
theorem override_present_but_empty_ignored :
    (handle_intent (α := Nat)
      ⟨some ("http://e".toList), some ("k".toList), none, some ("S1".toList)⟩
      ("Show ACME stock".toList) (some []) 0 (fun _ => 0)).1 =
      .ok ⟨"supplier_stock",
        [("supplier_id", .vStr ("S1".toList)), ("brand", .vStr ("ACME".toList))], 0⟩
    ∧ some ([] : List Char) ≠ (none : Option (List Char))
    ∧ ("S1".toList : List Char) ≠ ([] : List Char) :=
  ⟨by decide, by decide, by decide⟩

/-- C3 amended.  For a supplier-stock query, the supplier id resolves to the
caller override when present and nonempty, else to the configured default
(Python truthiness, i.e. `override or default`); when the resolved id is a
nonempty string, `handle_intent` assembles `{supplier_id, brand}` and
dispatches exactly one stock-lookup call, wrapping its payload. -/
theorem supplier_resolution_amended (env : ServerEnv) (q : List Char)
    (ov : Option (List Char)) (now : Int) {α : Type} (fetch : ApiCall → α)
    (hb : pyFalsy env.eweb_base_url = false) (hk : pyFalsy env.eweb_api_key = false)
    (hcl : classify q = some .supplierStock) (s : List Char)
    (hs : pyOr ov env.eweb_default_supplier_id = some s) (hne : s ≠ []) :
    handle_intent env q ov now fetch =
      (.ok ⟨"supplier_stock",
          [("supplier_id", PyVal.vStr s), ("brand", optVal (extract_brand q))],
          fetch (stockCall s (extract_brand q))⟩,
       [stockCall s (extract_brand q)]) := by
  have hci := clientInit_ok env hb hk
  have hpf : pyFalsy (some s) = false := pyFalsy_some_ne_nil s hne
  simp [handle_intent, hci, hcl, hs, hpf, get_supplier_stock,
    pyOr_of_truthy _ _ hpf, stockCall, optVal]

/-- Witness for the amended C3: the end-to-end example of the
specification, query `Show ACME stock` with configured default `S1`. -/
theorem supplier_resolution_amended_witness :
    handle_intent (α := Nat)
      ⟨some ("http://e".toList), some ("k".toList), none, some ("S1".toList)⟩
      ("Show ACME stock".toList) none 0 (fun _ => 0) =
    (.ok ⟨"supplier_stock",
        [("supplier_id", .vStr ("S1".toList)), ("brand", .vStr ("ACME".toList))], 0⟩,
     [stockCall ("S1".toList) (some ("ACME".toList))]) := by
  exact supplier_resolution_amended
    ⟨some ("http://e".toList), some ("k".toList), none, some ("S1".toList)⟩
    ("Show ACME stock".toList) none 0 (fun _ => 0)
    (by decide) (by decide) (by decide) ("S1".toList) rfl (by decide)

end EwebMCP
